import Mathlib

/-
Batteries marks the `Rat` field operations `@[irreducible]`; re-mark them
semireducible so that concrete rational computations (`decide`, `rfl`)
reduce.  This changes no definition, only unfolding hints.
-/
set_option allowUnsafeReducibility true
attribute [semireducible] Rat.add Rat.mul Rat.inv Rat.sub Rat.ofScientific

/-!
Shallow embedding of the route-search engine of `navigation_plus`
(`src/enhanced_routing_engine.py`, class `EnhancedRoutingEngine`).

Numbers are modelled by `ℚ`.  Python's `float('inf')` (used for the cost of
impassable edges) is modelled by `Option ℚ` where `none` stands for `+∞`.
Python `round(x, n)` is modelled by `roundTo`; Python rounds half to even
while `roundTo` rounds half up, but no value the theorems below evaluate is
an exact tie, so the two agree on everything proved here.

The haversine distance (`haversine_distance`) is a transcendental function of
the four coordinates; it is kept abstract as a parameter `hv` so that every
definition stays computable.  All theorems hold for an arbitrary `hv`.
-/

namespace NavigationPlus

/-- Python `round(x, n)`: round to `n` decimal places (half rounds up here,
half to even in Python; no value evaluated below is an exact tie). -/
def roundTo (x : ℚ) (n : ℕ) : ℚ := ((x * 10 ^ n + 1 / 2).floor : ℚ) / 10 ^ n

/-- Cost values: `none` models Python's `float('inf')`. -/
abbrev CostVal := Option ℚ

/-- Addition on costs, `∞ + x = x + ∞ = ∞`. -/
def addC : CostVal → CostVal → CostVal
  | none, _ => none
  | _, none => none
  | some a, some b => some (a + b)

/-- Scaling a cost by a positive rational; `∞ * k = ∞` (Python: `inf * 3.0 = inf`).
The engine only scales by `1.0` and `3.0`, never by `0`. -/
def scaleC (c : CostVal) (k : ℚ) : CostVal := c.map (fun x => x * k)

/-- Strict order on costs with `none = +∞` greatest. -/
def ltC : CostVal → CostVal → Bool
  | some a, some b => decide (a < b)
  | some _, none => true
  | none, _ => false

/-- Round a possibly-infinite value (Python `round(inf, 2) = inf`). -/
def roundC (c : CostVal) (n : ℕ) : CostVal := c.map (fun x => roundTo x n)

/-- A road-network node as stored in `road_network['nodes']`:
`{'gps': [lat, lon], 'elevation': number | None}`.  A missing elevation key
or a `None` value is `none`. -/
structure RNode where
  gps : List ℚ
  elevation : Option ℚ
  deriving DecidableEq

/-- A road-network edge dict: `from`/`to` are mandatory keys, `distance` and
`speed_limit` are read with `.get` defaults (100 m, 50 km/h). -/
structure REdge where
  fromNode : String
  toNode : String
  distance : Option ℚ
  speed_limit : Option ℚ
  deriving DecidableEq

/-- A vehicle database record (see `database.py`); every field is read with
`.get`, so each is optional. -/
structure Vehicle where
  hp : Option ℚ
  torque_nm : Option ℚ
  weight_kg : Option ℚ
  fuel_type : Option String
  fuel_consumption_city : Option ℚ
  fuel_consumption_highway : Option ℚ
  deriving DecidableEq

/-- The dict returned by `calculate_vehicle_capability` (lines 251-262).
`fuel_consumption_city` models reads of that *absent* key by
`calculate_edge_cost`; the constructor from the capability model always sets
it to `none`, because the returned dict carries no such key. -/
structure VehicleCapability where
  vehicle_name : String
  hp : ℚ
  torque : ℚ
  weight : ℚ
  power_weight_ratio : ℚ
  torque_weight_ratio : ℚ
  comfortable_slope : ℚ
  manageable_slope : ℚ
  maximum_slope : ℚ
  fuel_multipliers : List (String × ℚ)
  fuel_consumption_city : Option ℚ
  deriving DecidableEq

/-- The engine state built in `__init__`: node map, edge list, vehicle db.
Dicts are modelled as association lists with unique keys. -/
structure Engine where
  nodes : List (String × RNode)
  edges : List REdge
  vehicle_db : List (String × Vehicle)

/-- `self.outgoing_edges.get(node_id, [])` (built by `_build_edge_index`,
which groups edges by `from` preserving input order). -/
def outgoingEdges (eng : Engine) (nodeId : String) : List REdge :=
  eng.edges.filter (fun e => e.fromNode == nodeId)

/-- `self.incoming_edges.get(node_id, [])`. -/
def incomingEdges (eng : Engine) (nodeId : String) : List REdge :=
  eng.edges.filter (fun e => e.toNode == nodeId)

/-- `self.nodes.get(str(node_id), {})`: a missing node behaves as the empty
dict, whose `gps`/`elevation` reads then hit their defaults. -/
def getNode (nodes : List (String × RNode)) (nodeId : String) : RNode :=
  (nodes.lookup nodeId).getD ⟨[], none⟩

/-- The fixed fuel-multiplier table (lines 242-249). -/
def fuelMultiplierTable : List (String × ℚ) :=
  [("flat", 1.0), ("gentle", 1.15), ("moderate", 1.35),
   ("steep", 1.65), ("extreme", 2.2), ("descent", 0.7)]

/-- `vehicle_capability['fuel_multipliers'].get(category, 1.0)`. -/
def fuelMultiplier (cap : VehicleCapability) (category : String) : ℚ :=
  (cap.fuel_multipliers.lookup category).getD 1.0

/-- `calculate_vehicle_capability` (lines 198-262).  `None` when the vehicle
name is not in the db (an empty dict is falsy). -/
def calculate_vehicle_capability (vehicle_db : List (String × Vehicle))
    (vehicle_name : String) : Option VehicleCapability :=
  match vehicle_db.lookup vehicle_name with
  | none => none
  | some vehicle =>
    let hp := vehicle.hp.getD 100
    let torque := vehicle.torque_nm.getD 200
    let weight := vehicle.weight_kg.getD 1300
    let power_weight_ratio := (hp / weight) * 1000
    let torque_weight_ratio := torque / weight
    let base :=
      if power_weight_ratio < 70 then ((8 : ℚ), (12 : ℚ), (15 : ℚ))
      else if power_weight_ratio < 100 then (10, 15, 18)
      else (12, 18, 22)
    let withDiesel :=
      if vehicle.fuel_type = some "Dizel" then
        (base.1 + 1.0, base.2.1 + 1.5, base.2.2 + 2.0)
      else base
    some
      { vehicle_name := vehicle_name
        hp := hp
        torque := torque
        weight := weight
        power_weight_ratio := roundTo power_weight_ratio 2
        torque_weight_ratio := roundTo torque_weight_ratio 2
        comfortable_slope := roundTo withDiesel.1 1
        manageable_slope := roundTo withDiesel.2.1 1
        maximum_slope := roundTo withDiesel.2.2 1
        fuel_multipliers := fuelMultiplierTable
        fuel_consumption_city := none }

/-- The dict returned by `calculate_slope` (lines 534-542). -/
structure SlopeInfo where
  slope_percent : ℚ
  category : String
  difficulty : String
  elevation_change : ℚ
  distance_m : ℚ
  from_elevation : ℚ
  to_elevation : ℚ
  deriving DecidableEq

/-- `calculate_slope` (lines 480-542).  `hv` abstracts
`haversine_distance`; the category is classified on the *unrounded* slope,
while the reported `slope_percent` is rounded to 2 decimals. -/
def calculate_slope (hv : ℚ → ℚ → ℚ → ℚ → ℚ) (nodes : List (String × RNode))
    (fromId toId : String) : SlopeInfo :=
  let from_node := getNode nodes fromId
  let to_node := getNode nodes toId
  let from_elevation := from_node.elevation.getD 50
  let to_elevation := to_node.elevation.getD 50
  let elevation_change := to_elevation - from_elevation
  let from_lat := if from_node.gps.length ≥ 2 then from_node.gps.getD 0 0 else 0
  let from_lon := if from_node.gps.length ≥ 2 then from_node.gps.getD 1 0 else 0
  let to_lat := if to_node.gps.length ≥ 2 then to_node.gps.getD 0 0 else 0
  let to_lon := if to_node.gps.length ≥ 2 then to_node.gps.getD 1 0 else 0
  let distance := hv from_lat from_lon to_lat to_lon
  let slope_percent := if 0 < distance then (elevation_change / distance) * 100 else 0
  let abs_slope := |slope_percent|
  let cd : String × String :=
    if slope_percent < -2 then ("descent", "descent")
    else if abs_slope < 2 then ("flat", "easy")
    else if abs_slope < 5 then ("gentle", "easy")
    else if abs_slope < 10 then ("moderate", "moderate")
    else if abs_slope < 15 then ("steep", "hard")
    else ("extreme", "extreme")
  { slope_percent := roundTo slope_percent 2
    category := cd.1
    difficulty := cd.2
    elevation_change := roundTo elevation_change 1
    distance_m := roundTo distance 1
    from_elevation := roundTo from_elevation 1
    to_elevation := roundTo to_elevation 1 }

/-- The slope-penalty branch of `calculate_edge_cost` (lines 562-584):
penalty (`none` = `inf`), passability, difficulty, speed factor. -/
structure SlopeAssessment where
  slope_penalty : CostVal
  passable : Bool
  difficulty_level : String
  speed_factor : ℚ
  deriving DecidableEq

/-- Lines 563-584 of `calculate_edge_cost`, as a function of `abs_slope`. -/
def slopeAssessment (cap : VehicleCapability) (abs_slope : ℚ) : SlopeAssessment :=
  if abs_slope ≤ cap.comfortable_slope then
    ⟨some 1.0, true, "comfortable", 1.0⟩
  else if abs_slope ≤ cap.manageable_slope then
    ⟨some (1.5 + (abs_slope - cap.comfortable_slope) * 0.1), true, "manageable", 0.5⟩
  else if abs_slope ≤ cap.maximum_slope then
    ⟨some (2.5 + (abs_slope - cap.manageable_slope) * 0.2), true, "difficult", 0.25⟩
  else
    ⟨none, false, "impassable",
      max 0.15 (0.25 - (abs_slope - cap.maximum_slope) / 200)⟩

/-- The dict returned by `calculate_edge_cost` (lines 617-627). -/
structure EdgeCostResult where
  total_cost : CostVal
  distance : ℚ
  fuel_consumption : ℚ
  fuel_cost : ℚ
  time_minutes : ℚ
  slope_info : SlopeInfo
  passable : Bool
  difficulty_level : String
  slope_penalty : CostVal
  deriving DecidableEq

/-- `calculate_edge_cost` (lines 545-627).  The `time_of_day` argument is
accepted and ignored, exactly as in the source.  When the edge is passable
its penalty is finite, so the `getD 0` on the penalty never fires. -/
def calculate_edge_cost (hv : ℚ → ℚ → ℚ → ℚ → ℚ) (nodes : List (String × RNode))
    (edge : REdge) (cap : VehicleCapability)
    (_time_of_day : String) (mode : String) : EdgeCostResult :=
  let distance := edge.distance.getD 100
  let base_speed := edge.speed_limit.getD 50
  let slope_info := calculate_slope hv nodes edge.fromNode edge.toNode
  let slope_percent := slope_info.slope_percent
  let abs_slope := |slope_percent|
  let a := slopeAssessment cap abs_slope
  let fuel_multiplier := fuelMultiplier cap slope_info.category
  let base_consumption := cap.fuel_consumption_city.getD 6.0 / 100
  let fuel_consumption := base_consumption * (distance / 1000) * fuel_multiplier
  let effective_speed := max (base_speed * a.speed_factor) 5
  let time_minutes := (distance / 1000) / effective_speed * 60
  let total_cost : CostVal :=
    if a.passable then
      let fuel_cost := fuel_consumption * 35
      let slope_cost := (a.slope_penalty.getD 0) * 10
      let weights : ℚ × ℚ × ℚ :=
        if mode = "power_optimized" then (1.5, 0.8, 2.5) else (1, 1, 1)
      some (weights.1 * fuel_cost + weights.2.1 * time_minutes + weights.2.2 * slope_cost)
    else none
  { total_cost := total_cost
    distance := distance
    fuel_consumption := roundTo fuel_consumption 3
    fuel_cost := roundTo (fuel_consumption * 35) 2
    time_minutes := roundTo time_minutes 1
    slope_info := slope_info
    passable := a.passable
    difficulty_level := a.difficulty_level
    slope_penalty := roundC a.slope_penalty 2 }

/-- `calculate_heuristic` (lines 781-803).  Python returns `inf` when either
node dict is missing/falsy; nodes present in the map are non-empty dicts. -/
def calculate_heuristic (hv : ℚ → ℚ → ℚ → ℚ → ℚ) (nodes : List (String × RNode))
    (fromId toId : String) : CostVal :=
  match nodes.lookup fromId, nodes.lookup toId with
  | some fn, some tn =>
    let from_lat := if fn.gps.length ≥ 2 then fn.gps.getD 0 0 else 0
    let from_lon := if fn.gps.length ≥ 2 then fn.gps.getD 1 0 else 0
    let to_lat := if tn.gps.length ≥ 2 then tn.gps.getD 0 0 else 0
    let to_lon := if tn.gps.length ≥ 2 then tn.gps.getD 1 0 else 0
    some (hv from_lat from_lon to_lat to_lon / 100)
  | _, _ => none

/-- A `heapq` entry `(f_cost, node, path)`. -/
structure OpenEntry where
  prio : CostVal
  node : String
  path : List String
  deriving DecidableEq

/-- Python list comparison on `List String` (lexicographic, shorter prefix
first). -/
def listLtStr : List String → List String → Bool
  | [], [] => false
  | [], _ :: _ => true
  | _ :: _, [] => false
  | a :: as, b :: bs =>
    if a < b then true else if b < a then false else listLtStr as bs

/-- Python tuple comparison on heap entries: priority, then node id, then
path.  Total, so `heappop` always returns the least entry. -/
def entryLt (a b : OpenEntry) : Bool :=
  if ltC a.prio b.prio then true
  else if ltC b.prio a.prio then false
  else if a.node < b.node then true
  else if b.node < a.node then false
  else listLtStr a.path b.path

/-- `heapq.heappop`: remove a least entry (first such occurrence). -/
def popMin : List OpenEntry → Option (OpenEntry × List OpenEntry)
  | [] => none
  | e :: es =>
    match popMin es with
    | none => some (e, [])
    | some (m, rest) => if entryLt m e then some (m, e :: rest) else some (e, es)

/-- The per-call search state of `a_star_search` (lines 641-651). -/
structure SearchState where
  fOpen : List OpenEntry
  fClosed : List String
  fG : List (String × CostVal)
  fParents : List (String × (Option String × List String))
  bOpen : List OpenEntry
  bClosed : List String
  bG : List (String × CostVal)
  bParents : List (String × (Option String × List String))

/-- `_merge_bidirectional_paths` (lines 763-780). -/
def mergeBidirectionalPaths (meeting_point : String)
    (fParents bParents : List (String × (Option String × List String))) :
    List String :=
  let forward_path := ((fParents.lookup meeting_point).getD (none, [])).2
  let backward_path := ((bParents.lookup meeting_point).getD (none, [])).2
  let backward_path_reversed := backward_path.reverse
  if forward_path ≠ [] ∧ backward_path_reversed ≠ [] then
    forward_path ++ backward_path_reversed.drop 1
  else if forward_path ≠ [] then forward_path
  else backward_path_reversed

/-- Forward relaxation of one outgoing edge (lines 690-707); pure distance,
no slope check.  A popped node always has a g-cost, so the `getD` on the
current node's cost never fires. -/
def relaxForwardEdge (hv : ℚ → ℚ → ℚ → ℚ → ℚ) (nodes : List (String × RNode))
    (endNode current : String) (path : List String)
    (st : SearchState) (edge : REdge) : SearchState :=
  let neighbor := edge.toNode
  if neighbor ∈ st.fClosed then st
  else
    let distance := edge.distance.getD 100
    let tentative := addC ((st.fG.lookup current).getD none) (some distance)
    let better :=
      match st.fG.lookup neighbor with
      | none => true
      | some old => ltC tentative old
    if better then
      let newPath := path ++ [neighbor]
      let h := calculate_heuristic hv nodes neighbor endNode
      { st with
          fG := (neighbor, tentative) :: st.fG
          fParents := (neighbor, (some current, newPath)) :: st.fParents
          fOpen := ⟨addC tentative h, neighbor, newPath⟩ :: st.fOpen }
    else st

/-- One forward pop and expansion (lines 672-707): pop, meeting check
against the backward closed set, closed-set check, then relax each outgoing
edge in order. -/
def forwardStep (hv : ℚ → ℚ → ℚ → ℚ → ℚ) (eng : Engine) (endNode : String)
    (st : SearchState) : Sum (List String) SearchState :=
  match popMin st.fOpen with
  | none => Sum.inr st
  | some (e, rest) =>
    let st1 := { st with fOpen := rest }
    if e.node ∈ st1.bClosed then
      Sum.inl (mergeBidirectionalPaths e.node st1.fParents st1.bParents)
    else if e.node ∈ st1.fClosed then Sum.inr st1
    else
      let st2 := { st1 with fClosed := e.node :: st1.fClosed }
      Sum.inr ((outgoingEdges eng e.node).foldl
        (relaxForwardEdge hv eng.nodes endNode e.node e.path) st2)

/-- Backward relaxation of one incoming edge (lines 728-754): full edge cost
under the relaxed capability; an impassable edge is skipped unless it
touches the destination node, in which case its (infinite) cost is scaled by
`3.0` and the edge is still admitted. -/
def relaxBackwardEdge (hv : ℚ → ℚ → ℚ → ℚ → ℚ) (nodes : List (String × RNode))
    (relaxed : VehicleCapability) (tod mode : String)
    (endNode startNode current : String) (path : List String)
    (st : SearchState) (edge : REdge) : SearchState :=
  let neighbor := edge.fromNode
  if neighbor ∈ st.bClosed then st
  else
    let info := calculate_edge_cost hv nodes edge relaxed tod mode
    let is_end_edge := current = endNode
    if info.passable = false ∧ ¬is_end_edge then st
    else
      let cost_multiplier : ℚ :=
        if is_end_edge ∧ info.passable = false then 3.0 else 1.0
      let tentative :=
        addC ((st.bG.lookup current).getD none) (scaleC info.total_cost cost_multiplier)
      let better :=
        match st.bG.lookup neighbor with
        | none => true
        | some old => ltC tentative old
      if better then
        let newPath := path ++ [neighbor]
        let h := calculate_heuristic hv nodes neighbor startNode
        { st with
            bG := (neighbor, tentative) :: st.bG
            bParents := (neighbor, (some current, newPath)) :: st.bParents
            bOpen := ⟨addC tentative h, neighbor, newPath⟩ :: st.bOpen }
      else st

/-- One backward pop and expansion (lines 710-754). -/
def backwardStep (hv : ℚ → ℚ → ℚ → ℚ → ℚ) (eng : Engine)
    (relaxed : VehicleCapability) (startNode endNode tod mode : String)
    (st : SearchState) : Sum (List String) SearchState :=
  match popMin st.bOpen with
  | none => Sum.inr st
  | some (e, rest) =>
    let st1 := { st with bOpen := rest }
    if e.node ∈ st1.fClosed then
      Sum.inl (mergeBidirectionalPaths e.node st1.fParents st1.bParents)
    else if e.node ∈ st1.bClosed then Sum.inr st1
    else
      let st2 := { st1 with bClosed := e.node :: st1.bClosed }
      Sum.inr ((incomingEdges eng e.node).foldl
        (relaxBackwardEdge hv eng.nodes relaxed tod mode endNode startNode e.node e.path) st2)

/-- `max_iterations` (line 654). -/
def max_iterations : ℕ := 50000

/-- The `while` loop of `a_star_search` (lines 663-754), with the remaining
iteration budget as structural fuel.  Returns the result together with the
number of loop iterations executed.  One iteration advances the forward
direction and then the backward direction, each by at most one expansion;
when the budget is exhausted or both open heaps are empty the loop falls
through to `return None` (lines 756-760). -/
def aStarLoop (hv : ℚ → ℚ → ℚ → ℚ → ℚ) (eng : Engine)
    (relaxed : VehicleCapability) (startNode endNode tod mode : String) :
    SearchState → ℕ → Option (List String) × ℕ
  | _, 0 => (none, 0)
  | st, fuel + 1 =>
    if st.fOpen = [] ∧ st.bOpen = [] then (none, 0)
    else
      match forwardStep hv eng endNode st with
      | Sum.inl p => (some p, 1)
      | Sum.inr st1 =>
        match backwardStep hv eng relaxed startNode endNode tod mode st1 with
        | Sum.inl p => (some p, 1)
        | Sum.inr st2 =>
          let r := aStarLoop hv eng relaxed startNode endNode tod mode st2 fuel
          (r.1, r.2 + 1)

/-- `a_star_search` (lines 630-760), instrumented with the iteration count.
The backward capability is the vehicle capability with all three slope
thresholds relaxed by `×1.4` (lines 636-639). -/
def a_star_search_instrumented (hv : ℚ → ℚ → ℚ → ℚ → ℚ) (eng : Engine)
    (startNode endNode : String) (cap : VehicleCapability)
    (tod mode : String) : Option (List String) × ℕ :=
  let relaxed :=
    { cap with
        comfortable_slope := cap.comfortable_slope * 1.4
        manageable_slope := cap.manageable_slope * 1.4
        maximum_slope := cap.maximum_slope * 1.4 }
  let st0 : SearchState :=
    { fOpen := [⟨some 0, startNode, [startNode]⟩]
      fClosed := []
      fG := [(startNode, some 0)]
      fParents := [(startNode, (none, [startNode]))]
      bOpen := [⟨some 0, endNode, [endNode]⟩]
      bClosed := []
      bG := [(endNode, some 0)]
      bParents := [(endNode, (none, [endNode]))] }
  aStarLoop hv eng relaxed startNode endNode tod mode st0 max_iterations

/-- `a_star_search`: the path (or `None`) returned to the caller. -/
def a_star_search (hv : ℚ → ℚ → ℚ → ℚ → ℚ) (eng : Engine)
    (startNode endNode : String) (cap : VehicleCapability)
    (tod mode : String) : Option (List String) :=
  (a_star_search_instrumented hv eng startNode endNode cap tod mode).1

/-- `self.slope_colors` (lines 164-170). -/
def slope_colors : List (String × String) :=
  [("easy", "#00ff00"), ("moderate", "#ffff00"), ("hard", "#ff8800"),
   ("extreme", "#ff0000"), ("descent", "#0088ff")]

/-- `get_slope_color` (lines 879-882). -/
def get_slope_color (slope_info : SlopeInfo) : String :=
  (slope_colors.lookup slope_info.difficulty).getD "#888888"

/-- One segment record of `analyze_route` (lines 849-864). -/
structure Segment where
  fromNode : String
  toNode : String
  distance : ℚ
  slope : ℚ
  category : String
  difficulty : String
  elevation_change : ℚ
  from_elevation : ℚ
  to_elevation : ℚ
  color : String
  fuel_consumption : ℚ
  time_minutes : ℚ
  passable : Bool
  difficulty_level : String
  deriving DecidableEq

/-- The route dict (`analyze_route` lines 866-876, plus the keys that
`find_optimal_route` adds on some call sites: `google_maps_url` and
`error`; `none` models an absent key). -/
structure RouteResult where
  path : List String
  segments : List Segment
  total_distance : ℚ
  total_fuel : ℚ
  fuel_cost : ℚ
  total_time : ℚ
  max_slope : ℚ
  critical_sections : ℕ
  vehicle_capability : VehicleCapability
  google_maps_url : Option String
  error : Option String
  deriving DecidableEq

/-- Find the edge for one consecutive node pair (lines 820-824): the first
outgoing edge of `fromN` whose target is `toN`. -/
def findEdge (eng : Engine) (fromN toN : String) : Option REdge :=
  (outgoingEdges eng fromN).find? (fun e => e.toNode == toN)

/-- Accumulators of the `analyze_route` loop (lines 808-813). -/
structure RouteAcc where
  total_distance : ℚ
  total_fuel : ℚ
  total_time : ℚ
  max_slope : ℚ
  critical_sections : ℕ
  segments : List Segment

/-- One pass of the `analyze_route` loop (lines 815-864): a pair without a
matching edge is skipped (`continue`), contributing nothing. -/
def analyzeStep (hv : ℚ → ℚ → ℚ → ℚ → ℚ) (eng : Engine)
    (cap : VehicleCapability) (tod : String)
    (acc : RouteAcc) (pair : String × String) : RouteAcc :=
  match findEdge eng pair.1 pair.2 with
  | none => acc
  | some edge =>
    let ci := calculate_edge_cost hv eng.nodes edge cap tod "balanced"
    let si := ci.slope_info
    let abs_slope := |si.slope_percent|
    { total_distance := acc.total_distance + ci.distance / 1000
      total_fuel := acc.total_fuel + ci.fuel_consumption
      total_time := acc.total_time + ci.time_minutes
      max_slope := if abs_slope > acc.max_slope then abs_slope else acc.max_slope
      critical_sections := acc.critical_sections +
        (if ci.difficulty_level = "difficult" ∨ ci.difficulty_level = "manageable"
         then 1 else 0)
      segments := acc.segments ++
        [{ fromNode := pair.1
           toNode := pair.2
           distance := ci.distance
           slope := si.slope_percent
           category := si.category
           difficulty := si.difficulty
           elevation_change := si.elevation_change
           from_elevation := si.from_elevation
           to_elevation := si.to_elevation
           color := get_slope_color si
           fuel_consumption := ci.fuel_consumption
           time_minutes := ci.time_minutes
           passable := ci.passable
           difficulty_level := ci.difficulty_level }] }

/-- `analyze_route` (lines 806-876): walk consecutive pairs, accumulate,
round the totals.  The returned dict carries no `google_maps_url` and no
`error` key. -/
def analyze_route (hv : ℚ → ℚ → ℚ → ℚ → ℚ) (eng : Engine)
    (route_path : List String) (cap : VehicleCapability) (tod : String) :
    RouteResult :=
  let acc := (route_path.zip route_path.tail).foldl
    (analyzeStep hv eng cap tod) ⟨0, 0, 0, 0, 0, []⟩
  { path := route_path
    segments := acc.segments
    total_distance := roundTo acc.total_distance 2
    total_fuel := roundTo acc.total_fuel 2
    fuel_cost := roundTo (acc.total_fuel * 35) 2
    total_time := roundTo acc.total_time 1
    max_slope := roundTo acc.max_slope 1
    critical_sections := acc.critical_sections
    vehicle_capability := cap
    google_maps_url := none
    error := none }

/-- `find_closest_node` (lines 410-463): candidates within 200 m of the
query, scored by `connection_score * 100 - distance / 10`; the stable
descending sort makes the earliest highest-scoring candidate win.  Zero
coordinates are falsy in Python and are rejected or skipped. -/
def find_closest_node (hv : ℚ → ℚ → ℚ → ℚ → ℚ) (eng : Engine)
    (lat lon : ℚ) : Option String :=
  if lat = 0 ∨ lon = 0 then none
  else
    let candidates : List (String × ℚ × ℕ) := eng.nodes.filterMap (fun p =>
      let node_lat := p.2.gps.getD 0 0
      let node_lon := p.2.gps.getD 1 0
      if node_lat = 0 ∨ node_lon = 0 then none
      else
        let distance := hv lat lon node_lat node_lon
        if distance < 200 then
          some (p.1, distance,
            (outgoingEdges eng p.1).length + (incomingEdges eng p.1).length)
        else none)
    let score : String × ℚ × ℕ → ℚ := fun c => (c.2.2 : ℚ) * 100 - c.2.1 / 10
    match candidates with
    | [] => none
    | c :: cs => some (cs.foldl (fun best x => if score x > score best then x else best) c).1

/-- `generate_google_maps_url` (lines 885-921).  With the node schema
produced by `road_network.py` the nodes carry `gps` but no `lat`/`lon`
keys, so `node_data.get('lat', 0)` is always falsy, the waypoint list stays
below two entries and the function returns the fixed fallback URL on every
input. -/
def generate_google_maps_url (_route_path : List String) : String :=
  "https://www.google.com/maps/dir/?api=1&origin=0,0&destination=0,0&travelmode=driving"

/-- `find_optimal_route` (lines 323-407).  `None` models the early-failure
returns (unknown vehicle, no node located, identical endpoints; an empty
node id is falsy).  When the search yields no path, or a path of fewer than
two nodes, the degenerate summary of lines 380-392 is returned. -/
def find_optimal_route (hv : ℚ → ℚ → ℚ → ℚ → ℚ) (eng : Engine)
    (start_gps end_gps : ℚ × ℚ) (vehicle_name tod mode : String) :
    Option RouteResult :=
  match calculate_vehicle_capability eng.vehicle_db vehicle_name with
  | none => none
  | some cap =>
    match find_closest_node hv eng start_gps.1 start_gps.2 with
    | none => none
    | some start_node =>
      if start_node = "" then none
      else
        match find_closest_node hv eng end_gps.1 end_gps.2 with
        | none => none
        | some end_node =>
          if end_node = "" then none
          else if start_node = end_node then none
          else
            let route := a_star_search hv eng start_node end_node cap tod mode
            if route = none ∨ (route.getD []).length < 2 then
              some
                { path := if start_node = "" then [] else [start_node]
                  segments := []
                  total_distance := 0
                  total_fuel := 0
                  fuel_cost := 0
                  total_time := 0
                  max_slope := 0
                  critical_sections := 0
                  vehicle_capability := cap
                  google_maps_url := some (generate_google_maps_url [])
                  error := some "Rota bulunamadı" }
            else
              some { analyze_route hv eng (route.getD []) cap tod with
                       google_maps_url :=
                         some (generate_google_maps_url (route.getD [])) }

/-! ## Concrete fixtures used by witnesses and counterexample evaluations -/

/-- The first record of `VEHICLE_DATABASE` (`database.py`, lines 8-16). -/
def egeaVehicle : Vehicle :=
  { hp := some 95
    torque_nm := some 200
    weight_kg := some 1185
    fuel_type := some "Dizel"
    fuel_consumption_city := some 4.9
    fuel_consumption_highway := some 3.8 }

/-- A one-entry vehicle database holding the Fiat Egea record. -/
def egeaDb : List (String × Vehicle) := [("Fiat Egea 1.3 Multijet", egeaVehicle)]

/-- The capability dict `calculate_vehicle_capability` produces for the Fiat
Egea record (checked below by evaluation). -/
def capEgea : VehicleCapability :=
  { vehicle_name := "Fiat Egea 1.3 Multijet"
    hp := 95
    torque := 200
    weight := 1185
    power_weight_ratio := 80.17
    torque_weight_ratio := 0.17
    comfortable_slope := 11
    manageable_slope := 16.5
    maximum_slope := 20
    fuel_multipliers := fuelMultiplierTable
    fuel_consumption_city := none }

/-- Two nodes of equal elevation joined by a 1000 m edge. -/
def flatNodes : List (String × RNode) := [("A", ⟨[1, 1], some 100⟩), ("B", ⟨[2, 2], some 100⟩)]

/-- The 1000 m edge between the two flat nodes. -/
def flatEdge : REdge := ⟨"A", "B", some 1000, some 50⟩

/-- A degenerate planar-distance function (slope on equal elevations is zero
for every distance function). -/
def hvZero : ℚ → ℚ → ℚ → ℚ → ℚ := fun _ _ _ _ => 0

/-! ## Facts about the capability model shared by several theorems -/

/-- Every capability produced by `calculate_vehicle_capability` carries the
fixed fuel-multiplier table, no `fuel_consumption_city` key, and one of the
six threshold triples (three power tiers, with or without diesel bonus). -/
theorem capability_thresholds {db : List (String × Vehicle)} {name : String}
    {cap : VehicleCapability} (h : calculate_vehicle_capability db name = some cap) :
    cap.fuel_multipliers = fuelMultiplierTable ∧
    cap.fuel_consumption_city = none ∧
    ((cap.comfortable_slope, cap.manageable_slope, cap.maximum_slope) = (8, 12, 15) ∨
     (cap.comfortable_slope, cap.manageable_slope, cap.maximum_slope) = (9, 13.5, 17) ∨
     (cap.comfortable_slope, cap.manageable_slope, cap.maximum_slope) = (10, 15, 18) ∨
     (cap.comfortable_slope, cap.manageable_slope, cap.maximum_slope) = (11, 16.5, 20) ∨
     (cap.comfortable_slope, cap.manageable_slope, cap.maximum_slope) = (12, 18, 22) ∨
     (cap.comfortable_slope, cap.manageable_slope, cap.maximum_slope) = (13, 19.5, 24)) := by
  unfold calculate_vehicle_capability at h
  rcases hl : db.lookup name with _ | v
  · rw [hl] at h; exact absurd h (by simp)
  · rw [hl] at h
    simp only [Option.some.injEq] at h
    subst h
    refine ⟨rfl, rfl, ?_⟩
    split_ifs <;> simp only [Prod.mk.injEq] <;> decide

/-- Numeric consequences of `capability_thresholds` used in the slope
monotonicity and flat-edge arguments. -/
theorem capability_bounds {db : List (String × Vehicle)} {name : String}
    {cap : VehicleCapability} (h : calculate_vehicle_capability db name = some cap) :
    0 < cap.comfortable_slope ∧
    cap.comfortable_slope < cap.manageable_slope ∧
    cap.manageable_slope < cap.maximum_slope ∧
    cap.manageable_slope - cap.comfortable_slope < 10 := by
  rcases (capability_thresholds h).2.2 with h6 | h6 | h6 | h6 | h6 | h6 <;>
    (rw [Prod.ext_iff, Prod.ext_iff] at h6
     obtain ⟨h1, h2, h3⟩ := h6
     simp only at h1 h2 h3
     rw [h1, h2, h3]
     norm_num)

/-- `Rat.floor` is the floor of the `FloorRing ℚ` instance. -/
theorem rat_floor_eq_int_floor (q : ℚ) : q.floor = ⌊q⌋ := rfl

/-! ## Unfolding lemmas for `calculate_edge_cost` -/

theorem edge_cost_slope_info (hv : ℚ → ℚ → ℚ → ℚ → ℚ) (nodes : List (String × RNode))
    (edge : REdge) (cap : VehicleCapability) (tod mode : String) :
    (calculate_edge_cost hv nodes edge cap tod mode).slope_info =
      calculate_slope hv nodes edge.fromNode edge.toNode := rfl

theorem edge_cost_passable (hv : ℚ → ℚ → ℚ → ℚ → ℚ) (nodes : List (String × RNode))
    (edge : REdge) (cap : VehicleCapability) (tod mode : String) :
    (calculate_edge_cost hv nodes edge cap tod mode).passable =
      (slopeAssessment cap
        |(calculate_slope hv nodes edge.fromNode edge.toNode).slope_percent|).passable := rfl

theorem edge_cost_fuel_consumption (hv : ℚ → ℚ → ℚ → ℚ → ℚ)
    (nodes : List (String × RNode)) (edge : REdge) (cap : VehicleCapability)
    (tod mode : String) :
    (calculate_edge_cost hv nodes edge cap tod mode).fuel_consumption =
      roundTo (cap.fuel_consumption_city.getD 6.0 / 100 * (edge.distance.getD 100 / 1000) *
        fuelMultiplier cap (calculate_slope hv nodes edge.fromNode edge.toNode).category) 3 := rfl

theorem edge_cost_total_isSome (hv : ℚ → ℚ → ℚ → ℚ → ℚ) (nodes : List (String × RNode))
    (edge : REdge) (cap : VehicleCapability) (tod mode : String)
    (h : (calculate_edge_cost hv nodes edge cap tod mode).passable = true) :
    ((calculate_edge_cost hv nodes edge cap tod mode).total_cost).isSome = true := by
  rw [edge_cost_passable] at h
  simp [calculate_edge_cost, h]

/-- First branch of the slope assessment: within the comfortable limit. -/
theorem slopeAssessment_comfortable {cap : VehicleCapability} {a : ℚ}
    (h : a ≤ cap.comfortable_slope) :
    slopeAssessment cap a = ⟨some 1.0, true, "comfortable", 1.0⟩ := by
  unfold slopeAssessment
  rw [if_pos h]

/-- When the two endpoint elevations (after the 50 m default) agree, the
slope is zero and the edge is classified flat/easy. -/
theorem calculate_slope_zero_change {hv : ℚ → ℚ → ℚ → ℚ → ℚ}
    {nodes : List (String × RNode)} {a b : String}
    (h : (getNode nodes b).elevation.getD 50 = (getNode nodes a).elevation.getD 50) :
    (calculate_slope hv nodes a b).slope_percent = 0 ∧
    (calculate_slope hv nodes a b).category = "flat" ∧
    (calculate_slope hv nodes a b).difficulty = "easy" ∧
    (calculate_slope hv nodes a b).elevation_change = 0 := by
  simp only [calculate_slope]
  rw [h, sub_self]
  simp only [zero_div, zero_mul, ite_self]
  norm_num [roundTo, rat_floor_eq_int_floor]

theorem slope_from_elevation (hv : ℚ → ℚ → ℚ → ℚ → ℚ)
    (nodes : List (String × RNode)) (a b : String) :
    (calculate_slope hv nodes a b).from_elevation =
      roundTo ((getNode nodes a).elevation.getD 50) 1 := rfl

theorem slope_to_elevation (hv : ℚ → ℚ → ℚ → ℚ → ℚ)
    (nodes : List (String × RNode)) (a b : String) :
    (calculate_slope hv nodes a b).to_elevation =
      roundTo ((getNode nodes b).elevation.getD 50) 1 := rfl

/-! ## Claim theorems -/

/-- C2: the capability model maps the vehicle spec `hp=95`, `weight_kg=1185`,
`fuel_type=Dizel` to `power_to_weight = 80.17` (mid tier 10/15/18) and, after
the diesel bonus, to thresholds comfortable `11.0`, manageable `16.5`,
maximum `20.0`. -/
theorem c2_capability_fiat_egea {db : List (String × Vehicle)} {name : String}
    {v : Vehicle} (hdb : db.lookup name = some v)
    (hhp : v.hp = some 95) (hw : v.weight_kg = some 1185)
    (hft : v.fuel_type = some "Dizel") :
    ∃ cap, calculate_vehicle_capability db name = some cap ∧
      cap.power_weight_ratio = 80.17 ∧
      cap.comfortable_slope = 11.0 ∧
      cap.manageable_slope = 16.5 ∧
      cap.maximum_slope = 20.0 := by
  unfold calculate_vehicle_capability
  rw [hdb]
  refine ⟨_, rfl, ?_, ?_, ?_, ?_⟩ <;>
    · simp only [hhp, hw, hft, Option.getD_some]
      decide

/-- C2 witness: the Fiat Egea database record. -/
theorem c2_capability_fiat_egea_witness :
    egeaDb.lookup "Fiat Egea 1.3 Multijet" = some egeaVehicle ∧
    ∃ cap, calculate_vehicle_capability egeaDb "Fiat Egea 1.3 Multijet" = some cap ∧
      cap.power_weight_ratio = 80.17 ∧
      cap.comfortable_slope = 11.0 ∧
      cap.manageable_slope = 16.5 ∧
      cap.maximum_slope = 20.0 :=
  ⟨by decide,
   @c2_capability_fiat_egea egeaDb "Fiat Egea 1.3 Multijet" egeaVehicle
     (by decide) (by decide)
     (by decide) (by decide)⟩

/-- C1: the capability dict returned by `calculate_vehicle_capability`
carries no `fuel_consumption_city` key, so `calculate_edge_cost` always
falls back to the default `6.0` L/100km.  For the Fiat Egea (city
consumption `4.9`) on a flat 1000 m edge the reported fuel is
`6.0/100 × 1 × 1 = 0.06` L, not `4.9/100 × 1 × 1` as the claim's formula
requires. -/
theorem c1_fuel_uses_fallback_not_vehicle_city_consumption :
    egeaVehicle.fuel_consumption_city = some 4.9 ∧
    calculate_vehicle_capability egeaDb "Fiat Egea 1.3 Multijet" = some capEgea ∧
    capEgea.fuel_consumption_city = none ∧
    (calculate_edge_cost hvZero flatNodes flatEdge capEgea "offpeak" "balanced").slope_info.category
      = "flat" ∧
    (calculate_edge_cost hvZero flatNodes flatEdge capEgea "offpeak" "balanced").fuel_consumption
      = 6.0 / 100 * 1 * 1 ∧
    (calculate_edge_cost hvZero flatNodes flatEdge capEgea "offpeak" "balanced").fuel_consumption
      ≠ 4.9 / 100 * 1 * 1 := by
  decide

/-- C5: when both the forward and the backward parent maps record a
non-empty path for the meeting point, the merged path is the forward path
followed by the reversed backward path without its first element, and its
length is `len(forward) + len(backward) - 1`. -/
theorem c5_merge_bidirectional_path_length
    {meeting : String} {fP bP : List (String × (Option String × List String))}
    {p1 p2 : Option String} {fwd bwd : List String}
    (hf : fP.lookup meeting = some (p1, fwd))
    (hb : bP.lookup meeting = some (p2, bwd))
    (hfne : fwd ≠ []) (hbne : bwd ≠ []) :
    mergeBidirectionalPaths meeting fP bP = fwd ++ bwd.reverse.drop 1 ∧
    (mergeBidirectionalPaths meeting fP bP).length = fwd.length + bwd.length - 1 := by
  have hbrev : bwd.reverse ≠ [] := by simpa using hbne
  have hmerge : mergeBidirectionalPaths meeting fP bP = fwd ++ bwd.reverse.drop 1 := by
    unfold mergeBidirectionalPaths
    rw [hf, hb]
    simp only [Option.getD_some]
    rw [if_pos (And.intro hfne hbrev)]
  refine ⟨hmerge, ?_⟩
  rw [hmerge]
  have hlen : 1 ≤ bwd.length := List.length_pos.mpr hbne
  simp only [List.length_append, List.length_drop, List.length_reverse]
  omega

/-- C5 witness: a concrete meeting point with forward path `[a, m]` and
backward path `[b, m]`, merged into `[a, m, b]` of length `2 + 2 - 1`. -/
theorem c5_merge_bidirectional_path_length_witness :
    mergeBidirectionalPaths "m" [("m", (some "a", ["a", "m"]))] [("m", (some "b", ["b", "m"]))]
      = ["a", "m"] ++ (["b", "m"] : List String).reverse.drop 1 ∧
    (mergeBidirectionalPaths "m" [("m", (some "a", ["a", "m"]))] [("m", (some "b", ["b", "m"]))]).length
      = (["a", "m"] : List String).length + (["b", "m"] : List String).length - 1 :=
  @c5_merge_bidirectional_path_length "m" [("m", (some "a", ["a", "m"]))]
    [("m", (some "b", ["b", "m"]))] (some "a") (some "b") ["a", "m"] ["b", "m"]
    (by decide) (by decide) (by decide) (by decide)

/-- C8: an edge whose endpoints have identical (present) elevation has slope
`0`, category `flat`, fuel multiplier `1.0`, and is passable with a finite
total cost, for every capability the model produces. -/
theorem c8_equal_elevation_edge_flat_passable
    {hv : ℚ → ℚ → ℚ → ℚ → ℚ} {nodes : List (String × RNode)} {edge : REdge}
    {db : List (String × Vehicle)} {name : String} {cap : VehicleCapability}
    {e : ℚ} {tod mode : String}
    (hcap : calculate_vehicle_capability db name = some cap)
    (hf : (getNode nodes edge.fromNode).elevation = some e)
    (ht : (getNode nodes edge.toNode).elevation = some e) :
    (calculate_edge_cost hv nodes edge cap tod mode).slope_info.slope_percent = 0 ∧
    (calculate_edge_cost hv nodes edge cap tod mode).slope_info.category = "flat" ∧
    fuelMultiplier cap (calculate_edge_cost hv nodes edge cap tod mode).slope_info.category = 1 ∧
    (calculate_edge_cost hv nodes edge cap tod mode).passable = true ∧
    ∃ q, (calculate_edge_cost hv nodes edge cap tod mode).total_cost = some q := by
  have hz : (getNode nodes edge.toNode).elevation.getD 50 =
      (getNode nodes edge.fromNode).elevation.getD 50 := by rw [hf, ht]
  obtain ⟨hs, hc, -, -⟩ := @calculate_slope_zero_change hv nodes edge.fromNode edge.toNode hz
  have hpass : (calculate_edge_cost hv nodes edge cap tod mode).passable = true := by
    rw [edge_cost_passable, hs, abs_zero,
      slopeAssessment_comfortable (le_of_lt (capability_bounds hcap).1)]
  refine ⟨by rw [edge_cost_slope_info, hs], by rw [edge_cost_slope_info, hc], ?_, hpass,
    Option.isSome_iff_exists.mp (edge_cost_total_isSome _ _ _ _ _ _ hpass)⟩
  rw [edge_cost_slope_info, hc]
  unfold fuelMultiplier
  rw [(capability_thresholds hcap).1]
  decide

/-- C8 witness: the flat 1000 m edge and the Fiat Egea capability. -/
theorem c8_equal_elevation_edge_flat_passable_witness :
    calculate_vehicle_capability egeaDb "Fiat Egea 1.3 Multijet" = some capEgea ∧
    (calculate_edge_cost hvZero flatNodes flatEdge capEgea "offpeak" "balanced").slope_info.slope_percent = 0 ∧
    (calculate_edge_cost hvZero flatNodes flatEdge capEgea "offpeak" "balanced").slope_info.category = "flat" ∧
    fuelMultiplier capEgea
      (calculate_edge_cost hvZero flatNodes flatEdge capEgea "offpeak" "balanced").slope_info.category = 1 ∧
    (calculate_edge_cost hvZero flatNodes flatEdge capEgea "offpeak" "balanced").passable = true ∧
    ∃ q, (calculate_edge_cost hvZero flatNodes flatEdge capEgea "offpeak" "balanced").total_cost = some q := by
  have h := @c8_equal_elevation_edge_flat_passable hvZero flatNodes flatEdge egeaDb
    "Fiat Egea 1.3 Multijet" capEgea 100 "offpeak" "balanced"
    (by decide) (by decide) (by decide)
  exact ⟨by decide, h.1, h.2.1, h.2.2.1, h.2.2.2.1, h.2.2.2.2⟩

/-- C9: a missing elevation is replaced by the fixed 50 m fallback on each
endpoint independently; when both endpoints lack elevation the change is 0,
the slope is 0, and the edge is flat and passable for every capability the
model produces. -/
theorem c9_missing_elevation_fallback
    {hv : ℚ → ℚ → ℚ → ℚ → ℚ} {nodes : List (String × RNode)} {edge : REdge}
    {db : List (String × Vehicle)} {name : String} {cap : VehicleCapability}
    {tod mode : String}
    (hcap : calculate_vehicle_capability db name = some cap)
    (hf : (getNode nodes edge.fromNode).elevation = none)
    (ht : (getNode nodes edge.toNode).elevation = none) :
    (calculate_edge_cost hv nodes edge cap tod mode).slope_info.from_elevation = 50 ∧
    (calculate_edge_cost hv nodes edge cap tod mode).slope_info.to_elevation = 50 ∧
    (calculate_edge_cost hv nodes edge cap tod mode).slope_info.elevation_change = 0 ∧
    (calculate_edge_cost hv nodes edge cap tod mode).slope_info.slope_percent = 0 ∧
    (calculate_edge_cost hv nodes edge cap tod mode).slope_info.category = "flat" ∧
    (calculate_edge_cost hv nodes edge cap tod mode).passable = true ∧
    (∀ edge2 : REdge, (getNode nodes edge2.fromNode).elevation = none →
      (calculate_edge_cost hv nodes edge2 cap tod mode).slope_info.from_elevation = 50) ∧
    (∀ edge2 : REdge, (getNode nodes edge2.toNode).elevation = none →
      (calculate_edge_cost hv nodes edge2 cap tod mode).slope_info.to_elevation = 50) := by
  have h50 : roundTo ((50 : ℚ)) 1 = 50 := by
    norm_num [roundTo, rat_floor_eq_int_floor]
  have hz : (getNode nodes edge.toNode).elevation.getD 50 =
      (getNode nodes edge.fromNode).elevation.getD 50 := by rw [hf, ht]
  obtain ⟨hs, hc, -, hchange⟩ := @calculate_slope_zero_change hv nodes edge.fromNode edge.toNode hz
  have hpass : (calculate_edge_cost hv nodes edge cap tod mode).passable = true := by
    rw [edge_cost_passable, hs, abs_zero,
      slopeAssessment_comfortable (le_of_lt (capability_bounds hcap).1)]
  refine ⟨?_, ?_, by rw [edge_cost_slope_info, hchange],
    by rw [edge_cost_slope_info, hs], by rw [edge_cost_slope_info, hc], hpass, ?_, ?_⟩
  · rw [edge_cost_slope_info, slope_from_elevation, hf, Option.getD_none, h50]
  · rw [edge_cost_slope_info, slope_to_elevation, ht, Option.getD_none, h50]
  · intro edge2 hf2
    rw [edge_cost_slope_info, slope_from_elevation, hf2, Option.getD_none, h50]
  · intro edge2 ht2
    rw [edge_cost_slope_info, slope_to_elevation, ht2, Option.getD_none, h50]

/-- Two nodes with no elevation value. -/
def noElevNodes : List (String × RNode) :=
  [("A", ⟨[1, 1], none⟩), ("B", ⟨[2, 2], none⟩)]

/-- C9 witness: both endpoints lack elevation, so both report the 50 m
fallback and the edge is flat and passable. -/
theorem c9_missing_elevation_fallback_witness :
    (calculate_edge_cost hvZero noElevNodes flatEdge capEgea "offpeak" "balanced").slope_info.from_elevation = 50 ∧
    (calculate_edge_cost hvZero noElevNodes flatEdge capEgea "offpeak" "balanced").slope_info.to_elevation = 50 ∧
    (calculate_edge_cost hvZero noElevNodes flatEdge capEgea "offpeak" "balanced").slope_info.elevation_change = 0 ∧
    (calculate_edge_cost hvZero noElevNodes flatEdge capEgea "offpeak" "balanced").slope_info.slope_percent = 0 ∧
    (calculate_edge_cost hvZero noElevNodes flatEdge capEgea "offpeak" "balanced").slope_info.category = "flat" ∧
    (calculate_edge_cost hvZero noElevNodes flatEdge capEgea "offpeak" "balanced").passable = true := by
  have h := @c9_missing_elevation_fallback hvZero noElevNodes flatEdge egeaDb
    "Fiat Egea 1.3 Multijet" capEgea "offpeak" "balanced"
    (by decide) (by decide) (by decide)
  exact ⟨h.1, h.2.1, h.2.2.1, h.2.2.2.1, h.2.2.2.2.1, h.2.2.2.2.2.1⟩

/-- Second branch of the slope assessment: manageable. -/
theorem slopeAssessment_manageable {cap : VehicleCapability} {a : ℚ}
    (h1 : cap.comfortable_slope < a) (h2 : a ≤ cap.manageable_slope) :
    slopeAssessment cap a =
      ⟨some (1.5 + (a - cap.comfortable_slope) * 0.1), true, "manageable", 0.5⟩ := by
  unfold slopeAssessment
  rw [if_neg (not_le.mpr h1), if_pos h2]

/-- Third branch of the slope assessment: difficult. -/
theorem slopeAssessment_difficult {cap : VehicleCapability} {a : ℚ}
    (hcm : cap.comfortable_slope ≤ cap.manageable_slope)
    (h1 : cap.manageable_slope < a) (h2 : a ≤ cap.maximum_slope) :
    slopeAssessment cap a =
      ⟨some (2.5 + (a - cap.manageable_slope) * 0.2), true, "difficult", 0.25⟩ := by
  unfold slopeAssessment
  rw [if_neg (not_le.mpr (lt_of_le_of_lt hcm h1)), if_neg (not_le.mpr h1), if_pos h2]

/-- C6: for any capability produced by the model, the slope penalty of
`calculate_edge_cost` is strictly increasing in `|slope|` on the open
interval between the comfortable and maximum thresholds, including across
the manageable/difficult boundary (the jump is upward because
`manageable - comfortable < 10`). -/
theorem c6_slope_penalty_strictly_increasing
    {db : List (String × Vehicle)} {name : String} {cap : VehicleCapability}
    (hcap : calculate_vehicle_capability db name = some cap)
    {s1 s2 : ℚ} (h1 : cap.comfortable_slope < |s1|) (h2 : |s1| < |s2|)
    (h3 : |s2| < cap.maximum_slope) :
    ∃ p1 p2 : ℚ,
      (slopeAssessment cap |s1|).slope_penalty = some p1 ∧
      (slopeAssessment cap |s2|).slope_penalty = some p2 ∧ p1 < p2 := by
  obtain ⟨hc0, hcm, hmM, hgap⟩ := capability_bounds hcap
  by_cases hm1 : |s1| ≤ cap.manageable_slope
  · by_cases hm2 : |s2| ≤ cap.manageable_slope
    · refine ⟨_, _, congrArg SlopeAssessment.slope_penalty (slopeAssessment_manageable h1 hm1),
        congrArg SlopeAssessment.slope_penalty (slopeAssessment_manageable (lt_trans h1 h2) hm2), ?_⟩
      have h01 : (0.1 : ℚ) = 1 / 10 := by norm_num
      rw [h01]
      linarith
    · push_neg at hm2
      refine ⟨_, _, congrArg SlopeAssessment.slope_penalty (slopeAssessment_manageable h1 hm1),
        congrArg SlopeAssessment.slope_penalty
          (slopeAssessment_difficult (le_of_lt hcm) hm2 (le_of_lt h3)), ?_⟩
      have h01 : (0.1 : ℚ) = 1 / 10 := by norm_num
      have h02 : (0.2 : ℚ) = 2 / 10 := by norm_num
      have h15 : (1.5 : ℚ) = 3 / 2 := by norm_num
      have h25 : (2.5 : ℚ) = 5 / 2 := by norm_num
      rw [h01, h02, h15, h25]
      nlinarith
  · push_neg at hm1
    have hm2 : cap.manageable_slope < |s2| := lt_trans hm1 h2
    refine ⟨_, _, congrArg SlopeAssessment.slope_penalty
        (slopeAssessment_difficult (le_of_lt hcm) hm1 (le_of_lt (lt_trans h2 h3))),
      congrArg SlopeAssessment.slope_penalty
        (slopeAssessment_difficult (le_of_lt hcm) hm2 (le_of_lt h3)), ?_⟩
    have h02 : (0.2 : ℚ) = 2 / 10 := by norm_num
    rw [h02]
    linarith

/-- C6 witness: Fiat Egea thresholds (11 / 16.5 / 20), slopes 12 and 18
across the manageable/difficult boundary. -/
theorem c6_slope_penalty_strictly_increasing_witness :
    ∃ p1 p2 : ℚ,
      (slopeAssessment capEgea |(12 : ℚ)|).slope_penalty = some p1 ∧
      (slopeAssessment capEgea |(18 : ℚ)|).slope_penalty = some p2 ∧ p1 < p2 :=
  @c6_slope_penalty_strictly_increasing egeaDb "Fiat Egea 1.3 Multijet" capEgea
    (by decide) 12 18 (by decide) (by decide) (by decide)

/-- Modelled from the claim (C10): the edge-cost results of exactly those
consecutive pairs of `path` whose edge exists in the outgoing index — the
pairs `analyze_route` does not skip. -/
def specFoundPairCosts (hv : ℚ → ℚ → ℚ → ℚ → ℚ) (eng : Engine)
    (cap : VehicleCapability) (tod : String) (path : List String) :
    List EdgeCostResult :=
  (path.zip path.tail).filterMap
    (fun p => (findEdge eng p.1 p.2).map
      (fun e => calculate_edge_cost hv eng.nodes e cap tod "balanced"))

/-- The `analyze_route` loop, run from an arbitrary accumulator, adds
exactly the contributions of the pairs whose edge exists. -/
theorem analyzeStep_foldl (hv : ℚ → ℚ → ℚ → ℚ → ℚ) (eng : Engine)
    (cap : VehicleCapability) (tod : String) (l : List (String × String)) :
    ∀ acc : RouteAcc,
      (l.foldl (analyzeStep hv eng cap tod) acc).total_distance =
        acc.total_distance +
          ((l.filterMap (fun p => (findEdge eng p.1 p.2).map
            (fun e => calculate_edge_cost hv eng.nodes e cap tod "balanced"))).map
              (fun c => c.distance / 1000)).sum ∧
      (l.foldl (analyzeStep hv eng cap tod) acc).total_fuel =
        acc.total_fuel +
          ((l.filterMap (fun p => (findEdge eng p.1 p.2).map
            (fun e => calculate_edge_cost hv eng.nodes e cap tod "balanced"))).map
              (fun c => c.fuel_consumption)).sum ∧
      (l.foldl (analyzeStep hv eng cap tod) acc).total_time =
        acc.total_time +
          ((l.filterMap (fun p => (findEdge eng p.1 p.2).map
            (fun e => calculate_edge_cost hv eng.nodes e cap tod "balanced"))).map
              (fun c => c.time_minutes)).sum ∧
      (l.foldl (analyzeStep hv eng cap tod) acc).segments.length =
        acc.segments.length +
          (l.filterMap (fun p => (findEdge eng p.1 p.2).map
            (fun e => calculate_edge_cost hv eng.nodes e cap tod "balanced"))).length := by
  induction l with
  | nil => intro acc; simp
  | cons p t ih =>
    intro acc
    rcases hfe : findEdge eng p.1 p.2 with _ | e
    · have hstep : analyzeStep hv eng cap tod acc p = acc := by
        unfold analyzeStep; rw [hfe]
      simp only [List.foldl_cons, List.filterMap_cons, hfe, Option.map_none', hstep]
      exact ih acc
    · have hd : (analyzeStep hv eng cap tod acc p).total_distance =
          acc.total_distance +
            (calculate_edge_cost hv eng.nodes e cap tod "balanced").distance / 1000 := by
        unfold analyzeStep; rw [hfe]
      have hfu : (analyzeStep hv eng cap tod acc p).total_fuel =
          acc.total_fuel +
            (calculate_edge_cost hv eng.nodes e cap tod "balanced").fuel_consumption := by
        unfold analyzeStep; rw [hfe]
      have hti : (analyzeStep hv eng cap tod acc p).total_time =
          acc.total_time +
            (calculate_edge_cost hv eng.nodes e cap tod "balanced").time_minutes := by
        unfold analyzeStep; rw [hfe]
      have hsg : (analyzeStep hv eng cap tod acc p).segments.length =
          acc.segments.length + 1 := by
        unfold analyzeStep; rw [hfe]; simp
      obtain ⟨h1, h2, h3, h4⟩ := ih (analyzeStep hv eng cap tod acc p)
      simp only [List.foldl_cons, List.filterMap_cons, hfe, Option.map_some', List.map_cons,
        List.sum_cons, List.length_cons]
      rw [h1, h2, h3, h4, hd, hfu, hti, hsg]
      refine ⟨by ring, by ring, by ring, by omega⟩

/-- C10: `analyze_route` silently skips consecutive pairs with no matching
outgoing edge: the totals are the (rounded) sums over only the found pairs,
the segment list has one record per found pair, and no error marker is
set. -/
theorem c10_analyze_route_skips_missing_pairs (hv : ℚ → ℚ → ℚ → ℚ → ℚ)
    (eng : Engine) (path : List String) (cap : VehicleCapability) (tod : String) :
    (analyze_route hv eng path cap tod).total_distance =
      roundTo ((specFoundPairCosts hv eng cap tod path).map (fun c => c.distance / 1000)).sum 2 ∧
    (analyze_route hv eng path cap tod).total_fuel =
      roundTo ((specFoundPairCosts hv eng cap tod path).map (fun c => c.fuel_consumption)).sum 2 ∧
    (analyze_route hv eng path cap tod).fuel_cost =
      roundTo (((specFoundPairCosts hv eng cap tod path).map (fun c => c.fuel_consumption)).sum * 35) 2 ∧
    (analyze_route hv eng path cap tod).total_time =
      roundTo ((specFoundPairCosts hv eng cap tod path).map (fun c => c.time_minutes)).sum 1 ∧
    (analyze_route hv eng path cap tod).segments.length =
      (specFoundPairCosts hv eng cap tod path).length ∧
    (analyze_route hv eng path cap tod).error = none := by
  obtain ⟨h1, h2, h3, h4⟩ :=
    analyzeStep_foldl hv eng cap tod (path.zip path.tail) ⟨0, 0, 0, 0, 0, []⟩
  unfold analyze_route specFoundPairCosts
  simp only []
  rw [h1, h2, h3, h4]
  norm_num

/-- The search loop never executes more iterations than its fuel. -/
theorem aStarLoop_iterations_le (hv : ℚ → ℚ → ℚ → ℚ → ℚ) (eng : Engine)
    (relaxed : VehicleCapability) (sN eN tod mode : String) :
    ∀ (fuel : ℕ) (st : SearchState),
      (aStarLoop hv eng relaxed sN eN tod mode st fuel).2 ≤ fuel := by
  intro fuel
  induction fuel with
  | zero => intro st; simp [aStarLoop]
  | succ n ih =>
    intro st
    rw [aStarLoop]
    split
    · simp
    · rcases h1 : forwardStep hv eng eN st with p | st1
      · simp [h1]
      · rcases h2 : backwardStep hv eng relaxed sN eN tod mode st1 with p | st2
        · simp [h1, h2]
        · simp only [h1, h2]
          simpa using Nat.succ_le_succ (ih st2)

/-- C3: the bidirectional search executes at most 50,000 iterations of its
combined loop (each iteration advances each direction by at most one
expansion), and an exhausted budget makes the loop return `none`
("not found"); `a_star_search` reports the loop's result. -/
theorem c3_search_iteration_cap (hv : ℚ → ℚ → ℚ → ℚ → ℚ) (eng : Engine)
    (s e : String) (cap : VehicleCapability) (tod mode : String) :
    (a_star_search_instrumented hv eng s e cap tod mode).2 ≤ 50000 ∧
    a_star_search hv eng s e cap tod mode =
      (a_star_search_instrumented hv eng s e cap tod mode).1 ∧
    (∀ (r : VehicleCapability) (st : SearchState),
      aStarLoop hv eng r s e tod mode st 0 = (none, 0)) := by
  have h : ∀ (r : VehicleCapability) (st : SearchState),
      (aStarLoop hv eng r s e tod mode st max_iterations).2 ≤ 50000 := by
    intro r st
    exact aStarLoop_iterations_le hv eng r s e tod mode max_iterations st
  exact ⟨h _ _, rfl, fun r st => rfl⟩

/-- C7: when the vehicle is known, both endpoints resolve to distinct
non-empty nodes, and the search signals "not found", `find_optimal_route`
returns (it does not raise) a summary whose aggregates are all zero, whose
segment list is empty, and which carries the error marker
`"Rota bulunamadı"`. -/
theorem c7_route_not_found_returns_zero_summary
    {hv : ℚ → ℚ → ℚ → ℚ → ℚ} {eng : Engine} {sg eg : ℚ × ℚ}
    {name tod mode : String} {cap : VehicleCapability} {sN eN : String}
    (hcap : calculate_vehicle_capability eng.vehicle_db name = some cap)
    (hs : find_closest_node hv eng sg.1 sg.2 = some sN)
    (he : find_closest_node hv eng eg.1 eg.2 = some eN)
    (hsne : sN ≠ "") (hene : eN ≠ "") (hne : sN ≠ eN)
    (hsearch : a_star_search hv eng sN eN cap tod mode = none) :
    find_optimal_route hv eng sg eg name tod mode = some
      { path := [sN]
        segments := []
        total_distance := 0
        total_fuel := 0
        fuel_cost := 0
        total_time := 0
        max_slope := 0
        critical_sections := 0
        vehicle_capability := cap
        google_maps_url := some (generate_google_maps_url [])
        error := some "Rota bulunamadı" } := by
  unfold find_optimal_route
  rw [hcap, hs, he]
  simp only [hsearch, if_neg hsne, if_neg hene, if_neg hne]
  simp

/-- A two-node engine with no edges: both directions run out of frontier
without meeting, so the search reports "not found". -/
def engW : Engine := { nodes := flatNodes, edges := [], vehicle_db := egeaDb }

/-- A planar-distance function that puts each query next to exactly one of
the two nodes of `engW`. -/
def hvW : ℚ → ℚ → ℚ → ℚ → ℚ := fun a _ c _ => |a - c| * 1000

/-- C7 witness: on `engW` the search fails and `find_optimal_route` returns
the degenerate error summary. -/
theorem c7_route_not_found_returns_zero_summary_witness :
    a_star_search hvW engW "A" "B" capEgea "offpeak" "balanced" = none ∧
    find_optimal_route hvW engW (1, 1) (2, 2) "Fiat Egea 1.3 Multijet"
        "offpeak" "balanced" = some
      { path := ["A"]
        segments := []
        total_distance := 0
        total_fuel := 0
        fuel_cost := 0
        total_time := 0
        max_slope := 0
        critical_sections := 0
        vehicle_capability := capEgea
        google_maps_url := some (generate_google_maps_url [])
        error := some "Rota bulunamadı" } :=
  ⟨by decide,
   @c7_route_not_found_returns_zero_summary hvW engW (1, 1) (2, 2)
     "Fiat Egea 1.3 Multijet" "offpeak" "balanced" capEgea "A" "B"
     (by decide) (by decide) (by decide) (by decide) (by decide) (by decide)
     (by decide)⟩

/-- A steep final approach: `X` at elevation 0, destination `E` at 100 m,
100 m apart, giving a 100 % grade — impassable even under the 1.4× relaxed
Fiat Egea thresholds (maximum 28 %). -/
def steepNodes : List (String × RNode) :=
  [("X", ⟨[1, 1], some 0⟩), ("E", ⟨[1, 2], some 100⟩)]

def steepEdge : REdge := ⟨"X", "E", some 100, some 50⟩

def engSteep : Engine :=
  { nodes := steepNodes, edges := [steepEdge], vehicle_db := egeaDb }

def hvHundred : ℚ → ℚ → ℚ → ℚ → ℚ := fun _ _ _ _ => 100

/-- The backward-relaxed Fiat Egea capability built by `a_star_search`. -/
def capEgeaRelaxed : VehicleCapability :=
  { capEgea with
      comfortable_slope := capEgea.comfortable_slope * 1.4
      manageable_slope := capEgea.manageable_slope * 1.4
      maximum_slope := capEgea.maximum_slope * 1.4 }

/-- The initial search state of `a_star_search` from `X` to `E`. -/
def steepInitState : SearchState :=
  { fOpen := [⟨some 0, "X", ["X"]⟩]
    fClosed := []
    fG := [("X", some 0)]
    fParents := [("X", (none, ["X"]))]
    bOpen := [⟨some 0, "E", ["E"]⟩]
    bClosed := []
    bG := [("E", some 0)]
    bParents := [("E", (none, ["E"]))] }

def stepResultState : Sum (List String) SearchState → Option SearchState
  | Sum.inl _ => none
  | Sum.inr s => some s

/-- C4: the incoming edge of the destination `E` is impassable under the
relaxed thresholds (slope 100 % > 28 %), so its traversal cost is infinite
(`none`); the first backward expansion still admits `X` (it appears in the
backward open heap), but with tentative cost `∞ × 3 = ∞`, not
"predecessor cost + 3 × a finite traversal cost".  The destination remains
reachable: the full search still returns the path `[X, E]`. -/
theorem c4_end_edge_admitted_with_infinite_cost :
    (calculate_edge_cost hvHundred steepNodes steepEdge capEgeaRelaxed
      "offpeak" "balanced").slope_info.slope_percent = 100 ∧
    capEgeaRelaxed.maximum_slope = 28 ∧
    (calculate_edge_cost hvHundred steepNodes steepEdge capEgeaRelaxed
      "offpeak" "balanced").passable = false ∧
    (calculate_edge_cost hvHundred steepNodes steepEdge capEgeaRelaxed
      "offpeak" "balanced").total_cost = none ∧
    (stepResultState (backwardStep hvHundred engSteep capEgeaRelaxed "X" "E"
        "offpeak" "balanced" steepInitState)).map
      (fun s => (s.bG.lookup "X", s.bOpen.map (fun en => (en.node, en.prio)))) =
      some (some none, [("X", none)]) ∧
    a_star_search hvHundred engSteep "X" "E" capEgea "offpeak" "balanced" =
      some ["X", "E"] := by
  decide

end NavigationPlus
